import Mathlib

/-!
Shallow embedding of the credential-lifecycle core of the `hng-be-s7`
FastAPI service: the API-key registry with its in-memory validation cache
(`app/services/api_keys.py`), the authentication facade
(`app/services/auth.py`), and the signup password policy
(`app/schemas/auth.py`).

Time is modelled as a discrete `Nat` timeline measured in minutes.
`datetime.utcnow()` becomes an explicit `now : Nat` argument. The SQLAlchemy
session becomes explicit state passing over lists of rows; exceptions become
`Except`.

A load-bearing fact of this repository: the `APIKey` model
(`app/models/auth.py`) and the API-key service layer disagree on the digest
column. The model's persisted string column is `key` (unique, non-nullable);
it defines no `key_hash` attribute, while `create_api_key` constructs
`APIKey(key_hash=...)` (a `TypeError` under SQLAlchemy's declarative
constructor) and `validate_api_key` filters on `APIKey.key_hash` (an
`AttributeError` on the class, raised while the query expression is built,
before any store access). The embedding keeps the model's real `key` column
and models those service paths as the interpreter errors they raise.
-/

namespace HngAuth

/-- Modelled from the spec: `get_key_hash` from `app.utils.security` (the file
is absent from the sources; only its callers are). Per the spec it is a fast,
deterministic keyed digest of the API-key plaintext: same input always yields
the same digest, the digest is structurally unrelated to (in particular,
different from) the plaintext. A prefix-tagging stand-in keeps determinism and
injectivity while being evaluable. -/
def get_key_hash (s : String) : String := "sha256:" ++ s

/-- Row of the `api_keys` table exactly as `app/models/auth.py` declares it:
the persisted, unique, non-nullable string column is `key`; the model
defines NO `key_hash` column (the service layer nevertheless writes and
queries `key_hash` — the mismatch the crash results below trace). -/
structure APIKeyRow where
  id : Nat
  key : String
  name : String
  user_id : Nat
  created_at : Nat
  expires_at : Nat
  is_revoked : Bool
  last_used_at : Option Nat
deriving Repr, DecidableEq

/-- The dictionary `validate_api_key` builds and caches:
`{"api_key_id": ..., "user_id": ..., "name": ..., "type": "service"}`. -/
structure KeyInfo where
  api_key_id : Nat
  user_id : Nat
  name : String
  typ : String
deriving Repr, DecidableEq

/-- The module-level `API_KEY_CACHE` dict: key digest mapped to
`(api_key_dict, expiration_timestamp)`, as an association list with unique
keys (the populate site in the source is unreachable; see validate_api_key). -/
abbrev Cache := List (String × KeyInfo × Nat)

/-- Python `key_hash in API_KEY_CACHE` / `API_KEY_CACHE[key_hash]`. -/
def cacheLookup (c : Cache) (h : String) : Option (KeyInfo × Nat) :=
  (c.find? (fun e => e.1 == h)).map (fun e => e.2)

/-- Python `del API_KEY_CACHE[key_hash]`. -/
def cacheDel (c : Cache) (h : String) : Cache :=
  c.filter (fun e => !(e.1 == h))

/-- The mutable state `validate/revoke/delete` act on: the `api_keys` table
and the process-wide cache. -/
structure ValState where
  keys : List APIKeyRow
  cache : Cache
deriving Repr, DecidableEq

/-- `fastapi.HTTPException(status_code, detail)` as a value. -/
inductive HErr where
  | http (status : Nat) (detail : String)
deriving Repr, DecidableEq

def keyExpiredErr : HErr := .http 401 "API key has expired"
def keyNotFoundErr : HErr := .http 404 "API key not found"
def duplicateKeyNameErr : HErr := .http 400 "API key with this name already exists"
def emailRegisteredErr : HErr := .http 400 "Email already registered"
def usernameTakenErr : HErr := .http 400 "Username already taken"
def invalidCredentialsErr : HErr := .http 401 "Incorrect username or password"
def inactiveUserErr : HErr := .http 400 "Inactive user account"

/-- A Python-level exception escaping an API-key service call: either a
raised `HTTPException`, or an uncaught interpreter error — the
`AttributeError` from evaluating `APIKey.key_hash` on a model whose column
is `key` (api_keys.py line 98 against models/auth.py line 38), or the
`TypeError` from passing `key_hash=` to the model constructor (api_keys.py
line 55). -/
inductive PyError where
  | http (e : HErr)
  | attributeError (attr : String)
  | typeError (msg : String)
deriving Repr, DecidableEq

/-- SQLAlchemy integer primary keys are autogenerated; a fresh id is one more
than the largest id present. -/
def freshId (ids : List Nat) : Nat := ids.foldr Nat.max 0 + 1

/-- `validate_api_key(db, key)`: digest the plaintext and consult the cache;
an unexpired entry is returned as-is (no store access at all); a stale entry
is deleted first. Every path that falls through then builds
`db.query(APIKey).filter(APIKey.key_hash == key_hash, ...)` — but the model
defines no `key_hash` attribute (its column is `key`), so the attribute
access raises AttributeError while the query expression is being built: the
store lookup, the `None` return, the expiry check, the `last_used_at` stamp
and the cache populate below that line are all unreachable. -/
def validate_api_key (s : ValState) (now : Nat) (key : String) :
    Except PyError (Option KeyInfo) × ValState :=
  let key_hash := get_key_hash key
  match cacheLookup s.cache key_hash with
  | some (data, valid_until) =>
    if now < valid_until then (.ok (some data), s)
    else (.error (.attributeError "key_hash"),
          { s with cache := cacheDel s.cache key_hash })
  | none => (.error (.attributeError "key_hash"), s)

/-- `create_api_key(db, user_id, name, expires_in_days)`: the duplicate-name
pre-check runs first, over the real columns `user_id` and `name`, and raises
the 400 on a hit. Otherwise the secret is generated and digested, and then
`APIKey(key_hash=..., name=..., user_id=..., expires_at=...)` is constructed
— but the model accepts no `key_hash` keyword (its column is `key`), so the
declarative constructor raises TypeError before anything reaches the
session: no row is inserted, no plaintext is returned, the store is left
unchanged. `plain_key` stands for the random secret from
`generate_api_key()` (app.utils.security, absent from the sources). -/
def create_api_key (s : ValState) (now : Nat) (user_id : Nat) (name : String)
    (expires_in_days : Option Nat) (plain_key : String) :
    Except PyError (APIKeyRow × String) × ValState :=
  match s.keys.find? (fun r => r.user_id == user_id && r.name == name) with
  | some _ => (.error (.http duplicateKeyNameErr), s)
  | none =>
    (.error (.typeError "key_hash is an invalid keyword argument for APIKey"), s)

/-- `list_user_api_keys(db, user_id)`. -/
def list_user_api_keys (s : ValState) (user_id : Nat) : List APIKeyRow :=
  s.keys.filter (fun r => r.user_id == user_id)

/-- `revoke_api_key(db, key_id, user_id)`: single query filtered by id AND
owner; 404 on miss; otherwise set `is_revoked`, commit, then scan the cache
and remove every entry whose cached dict's `api_key_id` matches. -/
def revoke_api_key (s : ValState) (key_id : Nat) (user_id : Nat) :
    Except HErr APIKeyRow × ValState :=
  match s.keys.find? (fun r => r.id == key_id && r.user_id == user_id) with
  | none => (.error keyNotFoundErr, s)
  | some r =>
    let keys2 := s.keys.map (fun q =>
      if q.id == key_id then { q with is_revoked := true } else q)
    let cache2 := s.cache.filter (fun e => !(e.2.1.api_key_id == key_id))
    (.ok { r with is_revoked := true }, { keys := keys2, cache := cache2 })

/-- `delete_api_key(db, key_id, user_id)`: same id-AND-owner query and 404;
cache invalidation by identity happens before the row is deleted. -/
def delete_api_key (s : ValState) (key_id : Nat) (user_id : Nat) :
    Except HErr Unit × ValState :=
  match s.keys.find? (fun r => r.id == key_id && r.user_id == user_id) with
  | none => (.error keyNotFoundErr, s)
  | some r =>
    let cache2 := s.cache.filter (fun e => !(e.2.1.api_key_id == key_id))
    let keys2 := s.keys.filter (fun q => !(q.id == r.id))
    (.ok (), { keys := keys2, cache := cache2 })

instance instDecEqExcept {ε α : Type} [DecidableEq ε] [DecidableEq α] :
    DecidableEq (Except ε α) := fun x y =>
  match x, y with
  | .ok a, .ok b =>
    if h : a = b then isTrue (by rw [h])
    else isFalse (by intro hc; cases hc; exact h rfl)
  | .ok _, .error _ => isFalse (by intro hc; cases hc)
  | .error _, .ok _ => isFalse (by intro hc; cases hc)
  | .error e, .error f =>
    if h : e = f then isTrue (by rw [h])
    else isFalse (by intro hc; cases hc; exact h rfl)

/-- Row of the `users` table (`app/models/auth.py`): email and username each
carry a `unique=True` constraint; `is_active` defaults to `True`; only the
password digest is stored. -/
structure UserRow where
  id : Nat
  email : String
  username : String
  hashed_password : String
  created_at : Nat
  is_active : Bool
deriving Repr, DecidableEq

/-- `create_user(db, user_data)` (app/services/auth.py): pre-check email,
pre-check username, then hash and insert. `hashPassword` stands for
`get_password_hash` from `app.utils.security` (absent from the sources; the
spec describes a salted one-way function, so it is kept abstract as a
function argument). -/
def create_user (hashPassword : String → String) (db : List UserRow)
    (email username password : String) (now : Nat) :
    Except HErr UserRow × List UserRow :=
  if (db.find? (fun u => u.email == email)).isSome then
    (.error emailRegisteredErr, db)
  else if (db.find? (fun u => u.username == username)).isSome then
    (.error usernameTakenErr, db)
  else
    let row : UserRow :=
      { id := freshId (db.map (·.id)), email := email, username := username,
        hashed_password := hashPassword password, created_at := now,
        is_active := true }
    (.ok row, db ++ [row])

/-- Failure of a signup attempt at the store boundary: either an
`HTTPException` raised by the service's own pre-checks, or a raw
unique-constraint violation propagating out of `db.commit()` — the service
body wraps the insert in no handler, so an `IntegrityError` from the
`unique=True` columns of `users` surfaces untranslated. -/
inductive SignupFailure where
  | httpError (e : HErr)
  | uniqueViolation (constraint : String)
deriving Repr, DecidableEq

/-- `create_user` with rows committed by a concurrent writer between the
duplicate pre-checks and the insert (`interleaved`). The insert enforces the
table's unique constraints against the state it actually meets; the service
has no handler for the resulting violation, so it surfaces as
`SignupFailure.uniqueViolation`, not as a duplicate `HTTPException`. -/
def create_user_interleaved (hashPassword : String → String)
    (db interleaved : List UserRow) (email username password : String)
    (now : Nat) : Except SignupFailure UserRow × List UserRow :=
  if (db.find? (fun u => u.email == email)).isSome then
    (.error (.httpError emailRegisteredErr), db)
  else if (db.find? (fun u => u.username == username)).isSome then
    (.error (.httpError usernameTakenErr), db)
  else
    let db2 := db ++ interleaved
    if (db2.find? (fun u => u.email == email)).isSome then
      (.error (.uniqueViolation "users.email"), db2)
    else if (db2.find? (fun u => u.username == username)).isSome then
      (.error (.uniqueViolation "users.username"), db2)
    else
      let row : UserRow :=
        { id := freshId (db2.map (·.id)), email := email, username := username,
          hashed_password := hashPassword password, created_at := now,
          is_active := true }
      (.ok row, db2 ++ [row])

/-- `authenticate_user(db, username, password)`: lookup by username; one 401
for both "no such user" and "digest mismatch"; 400 only when the user is
found, verified and inactive. `verify` stands for `verify_password` from
`app.utils.security` (absent from the sources; spec: boolean constant-time
comparison that never throws), kept abstract as a function argument. -/
def authenticate_user (verify : String → String → Bool) (db : List UserRow)
    (username password : String) : Except HErr UserRow :=
  match db.find? (fun u => u.username == username) with
  | none => .error invalidCredentialsErr
  | some user =>
    if !(verify password user.hashed_password) then .error invalidCredentialsErr
    else if !user.is_active then .error inactiveUserErr
    else .ok user

/-- Decoded content of the JWT issued by `create_access_token`. -/
structure AccessToken where
  sub : Nat
  exp : Nat
deriving Repr, DecidableEq

/-- `settings.ACCESS_TOKEN_EXPIRE_MINUTES` (app/config.py). -/
def ACCESS_TOKEN_EXPIRE_MINUTES : Nat := 30

/-- Modelled from the spec: `create_access_token` from `app.utils.security`
(absent from the sources). Per the spec, `issue(subjectId, ttl)` produces a
signed token embedding the subject identity and the expiration instant
`now + ttl`; the signature is process-wide configuration abstracted away. -/
def create_access_token (sub : Nat) (now : Nat) (expires_delta : Nat) : AccessToken :=
  { sub := sub, exp := now + expires_delta }

/-- `create_user_token(user)`: token with `data={"sub": user.id}` and the
configured 30-minute TTL. -/
def create_user_token (now : Nat) (user : UserRow) : AccessToken :=
  create_access_token user.id now ACCESS_TOKEN_EXPIRE_MINUTES

/-- The character class of the validator's special-character regex in
`UserSignup.validate_password`: `[!@#$%^&*()_+\-=\[\]{}|;:,.<>?]`. -/
def SPECIAL_CHARS : List Char :=
  ['!', '@', '#', '$', '%', '^', '&', '*', '(', ')', '_', '+', '-', '=',
   '[', ']', '\x7b', '\x7d', '|', ';', ':', ',', '.', '<', '>', '?']

/-- `re.search(r"[A-Z]", value)` as a Boolean. -/
def hasUpper (v : String) : Bool := v.data.any (fun c => 'A' ≤ c && c ≤ 'Z')

/-- `re.search(r"[a-z]", value)` as a Boolean. -/
def hasLower (v : String) : Bool := v.data.any (fun c => 'a' ≤ c && c ≤ 'z')

/-- `re.search(r"\d", value)` as a Boolean (decimal digits). -/
def hasDigit (v : String) : Bool := v.data.any (fun c => '0' ≤ c && c ≤ '9')

/-- The special-character search of the validator as a Boolean. -/
def hasSpecial (v : String) : Bool := v.data.any (fun c => SPECIAL_CHARS.contains c)

/-- Pydantic `Field(min_length=8)` on `UserSignup.password`. -/
def MIN_PASSWORD_LENGTH : Nat := 8

/-- The full password gate of `UserSignup`: pydantic first enforces the
field's `min_length=8` constraint, then the `@field_validator` (default
"after" mode) checks uppercase, lowercase, digit, special in that order,
raising `ValueError` with the message of the first failed rule. -/
def validate_signup_password (value : String) : Except String String :=
  if value.length < MIN_PASSWORD_LENGTH then
    .error "String should have at least 8 characters"
  else if !(hasUpper value) then
    .error "Password must contain at least one uppercase letter"
  else if !(hasLower value) then
    .error "Password must contain at least one lowercase letter"
  else if !(hasDigit value) then
    .error "Password must contain at least one number"
  else if !(hasSpecial value) then
    .error "Password must contain at least one special character"
  else .ok value

/-! ## Theorems about the claims -/

/-- C9: `revoke_api_key` and `delete_api_key` run one query filtered by id
AND owner and answer the same 404 `keyNotFoundErr` both when no row has the
id and when a row has the id but a different owner — the caller cannot tell
the two apart; only a row with both the id and the owner lets them proceed. -/
theorem revoke_delete_not_found_hides_ownership
    (s : ValState) (key_id user_id : Nat) :
    ((∀ r ∈ s.keys, r.id ≠ key_id) →
      revoke_api_key s key_id user_id = (.error keyNotFoundErr, s) ∧
      delete_api_key s key_id user_id = (.error keyNotFoundErr, s)) ∧
    ((∀ r ∈ s.keys, r.id = key_id → r.user_id ≠ user_id) →
      revoke_api_key s key_id user_id = (.error keyNotFoundErr, s) ∧
      delete_api_key s key_id user_id = (.error keyNotFoundErr, s)) ∧
    (∀ r ∈ s.keys, r.id = key_id → r.user_id = user_id →
      (∃ q, (revoke_api_key s key_id user_id).1 = .ok q ∧ q.is_revoked = true) ∧
      (delete_api_key s key_id user_id).1 = .ok ()) := by
  have herr : ∀ (hmiss : ∀ r ∈ s.keys, ¬(r.id = key_id ∧ r.user_id = user_id)),
      revoke_api_key s key_id user_id = (.error keyNotFoundErr, s) ∧
      delete_api_key s key_id user_id = (.error keyNotFoundErr, s) := by
    intro hmiss
    have hf : s.keys.find? (fun r => r.id == key_id && r.user_id == user_id) = none := by
      rw [List.find?_eq_none]
      intro x hx
      simp only [Bool.and_eq_true, beq_iff_eq, not_and]
      intro h1 h2
      exact hmiss x hx ⟨h1, h2⟩
    exact ⟨by simp [revoke_api_key, hf], by simp [delete_api_key, hf]⟩
  refine ⟨fun h => herr (fun r hr hand => h r hr hand.1),
          fun h => herr (fun r hr hand => h r hr hand.1 hand.2), ?_⟩
  intro r hr hid huid
  have hsome : (s.keys.find? (fun q => q.id == key_id && q.user_id == user_id)).isSome := by
    rw [List.find?_isSome]
    exact ⟨r, hr, by simp [hid, huid]⟩
  obtain ⟨q, hq⟩ := Option.isSome_iff_exists.mp hsome
  constructor
  · exact ⟨{ q with is_revoked := true }, by simp [revoke_api_key, hq], rfl⟩
  · simp [delete_api_key, hq]

def c9Row : APIKeyRow :=
  { id := 5, key := "K9", name := "a", user_id := 7,
    created_at := 0, expires_at := 99, is_revoked := false, last_used_at := none }

def c9State : ValState := { keys := [c9Row], cache := [] }

theorem revoke_delete_not_found_hides_ownership_witness :
    ((∀ r ∈ c9State.keys, r.id ≠ 6) ∧
      revoke_api_key c9State 6 7 = (.error keyNotFoundErr, c9State)) ∧
    ((∀ r ∈ c9State.keys, r.id = 5 → r.user_id ≠ 8) ∧
      delete_api_key c9State 5 8 = (.error keyNotFoundErr, c9State)) ∧
    (delete_api_key c9State 5 7).1 = .ok () :=
  ⟨⟨by decide, ((revoke_delete_not_found_hides_ownership c9State 6 7).1 (by decide)).1⟩,
   ⟨by decide, ((revoke_delete_not_found_hides_ownership c9State 5 8).2.1 (by decide)).2⟩,
   ((revoke_delete_not_found_hides_ownership c9State 5 7).2.2
     c9Row (by decide) (by decide) (by decide)).2⟩

/-- C10: the name-uniqueness pre-check of `create_api_key` filters only on
owner and name — it does not exclude revoked rows — so creation fails with
the duplicate-name 400 whenever ANY key of the owner bears the name, a
revoked (soft-deleted) one included, and the state is unchanged. -/
theorem create_duplicate_name_includes_revoked
    (s : ValState) (now user_id : Nat) (name : String) (days : Option Nat)
    (plain : String) (r : APIKeyRow) (hmem : r ∈ s.keys)
    (huid : r.user_id = user_id) (hname : r.name = name) :
    create_api_key s now user_id name days plain
      = (.error (.http duplicateKeyNameErr), s) := by
  have hsome : (s.keys.find? (fun q => q.user_id == user_id && q.name == name)).isSome := by
    rw [List.find?_isSome]
    exact ⟨r, hmem, by simp [huid, hname]⟩
  obtain ⟨q, hq⟩ := Option.isSome_iff_exists.mp hsome
  simp [create_api_key, hq]

def c10Revoked : APIKeyRow :=
  { id := 3, key := "K10", name := "ci", user_id := 7,
    created_at := 0, expires_at := 99, is_revoked := true, last_used_at := none }

def c10State : ValState := { keys := [c10Revoked], cache := [] }

theorem create_duplicate_name_includes_revoked_witness :
    c10Revoked ∈ c10State.keys ∧ c10Revoked.is_revoked = true ∧
      c10Revoked.user_id = 7 ∧ c10Revoked.name = "ci" ∧
      create_api_key c10State 50 7 "ci" none "fresh"
        = (.error (.http duplicateKeyNameErr), c10State) :=
  ⟨by decide, by decide, by decide, by decide,
   create_duplicate_name_includes_revoked c10State 50 7 "ci" none "fresh"
     c10Revoked (by decide) (by decide) (by decide)⟩

/-- C7: `authenticate_user` answers the one 401 `invalidCredentialsErr` both
for an unknown username and for a digest mismatch (the same value, preventing
username enumeration); the 400 `inactiveUserErr` is answered exactly when the
user is found, the password verifies and `is_active` is false; on success the
token from `create_user_token` carries the user's id as subject. -/
theorem login_error_discipline
    (verify : String → String → Bool) (db : List UserRow)
    (username password : String) (now : Nat) :
    ((∀ u ∈ db, u.username ≠ username) →
      authenticate_user verify db username password = .error invalidCredentialsErr) ∧
    (∀ u, db.find? (fun x => x.username == username) = some u →
      verify password u.hashed_password = false →
      authenticate_user verify db username password = .error invalidCredentialsErr) ∧
    (∀ u, db.find? (fun x => x.username == username) = some u →
      verify password u.hashed_password = true → u.is_active = false →
      authenticate_user verify db username password = .error inactiveUserErr) ∧
    inactiveUserErr ≠ invalidCredentialsErr ∧
    (authenticate_user verify db username password = .error inactiveUserErr →
      ∃ u, db.find? (fun x => x.username == username) = some u ∧
        verify password u.hashed_password = true ∧ u.is_active = false) ∧
    (∀ u, db.find? (fun x => x.username == username) = some u →
      verify password u.hashed_password = true → u.is_active = true →
      authenticate_user verify db username password = .ok u ∧
      (create_user_token now u).sub = u.id) := by
  refine ⟨?_, ?_, ?_, by decide, ?_, ?_⟩
  · intro habs
    have hf : db.find? (fun x => x.username == username) = none := by
      rw [List.find?_eq_none]
      intro x hx
      simp only [beq_iff_eq]
      exact habs x hx
    simp [authenticate_user, hf]
  · intro u hu hv
    simp [authenticate_user, hu, hv]
  · intro u hu hv hia
    simp [authenticate_user, hu, hv, hia]
  · intro herr
    cases hf : db.find? (fun x => x.username == username) with
    | none =>
      rw [authenticate_user, hf] at herr
      exact absurd (HErr.http.injEq _ _ _ _ ▸ (Except.error.injEq _ _ ▸ herr)) (by decide)
    | some u =>
      refine ⟨u, rfl, ?_⟩
      rw [authenticate_user, hf] at herr
      cases hv : verify password u.hashed_password with
      | false => simp [hv] at herr; exact absurd herr (by decide)
      | true =>
        cases hia : u.is_active with
        | false => exact ⟨rfl, rfl⟩
        | true => simp [hv, hia] at herr
  · intro u hu hv hia
    exact ⟨by simp [authenticate_user, hu, hv, hia], rfl⟩

def c7Verify (p h : String) : Bool := h == "bcrypt:" ++ p

def c7User : UserRow :=
  { id := 9, email := "a@x.com", username := "alice",
    hashed_password := "bcrypt:Str0ng!Pass", created_at := 0, is_active := true }

theorem login_error_discipline_witness :
    ((∀ u ∈ [c7User], u.username ≠ "bob") ∧
      authenticate_user c7Verify [c7User] "bob" "Str0ng!Pass"
        = .error invalidCredentialsErr) ∧
    (c7Verify "wrong" c7User.hashed_password = false ∧
      authenticate_user c7Verify [c7User] "alice" "wrong"
        = .error invalidCredentialsErr) ∧
    (authenticate_user c7Verify [c7User] "alice" "Str0ng!Pass" = .ok c7User ∧
      (create_user_token 0 c7User).sub = c7User.id) :=
  ⟨⟨by decide, (login_error_discipline c7Verify [c7User] "bob" "Str0ng!Pass" 0).1 (by decide)⟩,
   ⟨by decide, (login_error_discipline c7Verify [c7User] "alice" "wrong" 0).2.1
      c7User (by decide) (by decide)⟩,
   (login_error_discipline c7Verify [c7User] "alice" "Str0ng!Pass" 0).2.2.2.2.2
      c7User (by decide) (by decide) (by decide)⟩

/-- C8: the signup password gate accepts exactly the passwords with at least
8 characters, an uppercase letter, a lowercase letter, a digit and a symbol
of the validator's punctuation class, and on failure reports the first rule
unmet in the order length, uppercase, lowercase, digit, special (pydantic's
`min_length` runs before the `field_validator` checks). -/
theorem password_policy_first_unmet_rule (p : String) :
    (p.length < MIN_PASSWORD_LENGTH →
      validate_signup_password p = .error "String should have at least 8 characters") ∧
    (MIN_PASSWORD_LENGTH ≤ p.length → hasUpper p = false →
      validate_signup_password p
        = .error "Password must contain at least one uppercase letter") ∧
    (MIN_PASSWORD_LENGTH ≤ p.length → hasUpper p = true → hasLower p = false →
      validate_signup_password p
        = .error "Password must contain at least one lowercase letter") ∧
    (MIN_PASSWORD_LENGTH ≤ p.length → hasUpper p = true → hasLower p = true →
      hasDigit p = false →
      validate_signup_password p
        = .error "Password must contain at least one number") ∧
    (MIN_PASSWORD_LENGTH ≤ p.length → hasUpper p = true → hasLower p = true →
      hasDigit p = true → hasSpecial p = false →
      validate_signup_password p
        = .error "Password must contain at least one special character") ∧
    (validate_signup_password p = .ok p ↔
      MIN_PASSWORD_LENGTH ≤ p.length ∧ hasUpper p = true ∧ hasLower p = true ∧
        hasDigit p = true ∧ hasSpecial p = true) := by
  unfold validate_signup_password
  split_ifs with h1 h2 h3 h4 h5 <;> simp_all

def c8Good : String := "Abcd1!xy"

theorem password_policy_first_unmet_rule_witness :
    (validate_signup_password c8Good = .ok c8Good ∧
      MIN_PASSWORD_LENGTH ≤ c8Good.length ∧ hasUpper c8Good = true ∧
      hasLower c8Good = true ∧ hasDigit c8Good = true ∧ hasSpecial c8Good = true) ∧
    ("Ab1!".length < MIN_PASSWORD_LENGTH ∧
      validate_signup_password "Ab1!"
        = .error "String should have at least 8 characters") ∧
    (hasUpper "abcd1!xy" = false ∧
      validate_signup_password "abcd1!xy"
        = .error "Password must contain at least one uppercase letter") ∧
    (hasSpecial "Abcd1xyz" = false ∧
      validate_signup_password "Abcd1xyz"
        = .error "Password must contain at least one special character") :=
  ⟨⟨(password_policy_first_unmet_rule c8Good).2.2.2.2.2.mpr
      ⟨by decide, by decide, by decide, by decide, by decide⟩,
    by decide, by decide, by decide, by decide, by decide⟩,
   ⟨by decide, (password_policy_first_unmet_rule "Ab1!").1 (by decide)⟩,
   ⟨by decide, (password_policy_first_unmet_rule "abcd1!xy").2.1 (by decide) (by decide)⟩,
   ⟨by decide, (password_policy_first_unmet_rule "Abcd1xyz").2.2.2.2.1
      (by decide) (by decide) (by decide) (by decide) (by decide)⟩⟩

def bobRow : UserRow :=
  { id := 1, email := "a@x.com", username := "bob",
    hashed_password := "H:pw", created_at := 0, is_active := true }

/-- C6 counterexample: the service body wraps the insert in no handler, so
when a concurrent writer lands the same email between the pre-checks and the
insert, the unique-constraint violation surfaces as a raw store error — it is
NOT translated into the duplicate-email (or duplicate-username) signal the
claim requires. -/
theorem signup_race_counterexample :
    (create_user_interleaved (fun p => "H:" ++ p) [] [bobRow] "a@x.com" "alice" "pw" 0).1
        = .error (.uniqueViolation "users.email") ∧
    (create_user_interleaved (fun p => "H:" ++ p) [] [bobRow] "a@x.com" "alice" "pw" 0).1
        ≠ .error (.httpError emailRegisteredErr) ∧
    (create_user_interleaved (fun p => "H:" ++ p) [] [bobRow] "a@x.com" "alice" "pw" 0).1
        ≠ .error (.httpError usernameTakenErr) := by
  refine ⟨by decide, by decide, by decide⟩

/-- C6 (amended): signup against a store already holding the email fails with
the duplicate-email 400 and leaves the store unchanged, likewise for the
username; the store's unique constraints stop two racing writers from both
succeeding; but the duplicate signal relies solely on the pre-checks — an
insert-time unique-constraint violation propagates as a raw store error
instead of being treated as the authoritative duplicate signal. -/
theorem signup_duplicate_behavior
    (hp : String → String) (db : List UserRow) (email username password : String)
    (now : Nat) :
    ((∃ u ∈ db, u.email = email) →
      create_user hp db email username password now = (.error emailRegisteredErr, db)) ∧
    ((∀ u ∈ db, u.email ≠ email) → (∃ u ∈ db, u.username = username) →
      create_user hp db email username password now = (.error usernameTakenErr, db)) ∧
    (∀ interleaved : List UserRow,
      (∀ u ∈ db, u.email ≠ email ∧ u.username ≠ username) →
      (∃ u ∈ interleaved, u.email = email) →
      (create_user_interleaved hp db interleaved email username password now).1
          = .error (.uniqueViolation "users.email") ∧
      ∀ u : UserRow,
        (create_user_interleaved hp db interleaved email username password now).1
          ≠ .ok u) := by
  have hfindE : ∀ l : List UserRow, (∃ u ∈ l, u.email = email) →
      ((l.find? (fun u => u.email == email)).isSome) := by
    intro l ⟨u, hu, he⟩
    rw [List.find?_isSome]
    exact ⟨u, hu, by simp [he]⟩
  refine ⟨?_, ?_, ?_⟩
  · intro hdup
    obtain ⟨q, hq⟩ := Option.isSome_iff_exists.mp (hfindE db hdup)
    simp [create_user, hq]
  · intro hno hdup
    have hfe : db.find? (fun u => u.email == email) = none := by
      rw [List.find?_eq_none]
      intro x hx
      simp only [beq_iff_eq]
      exact hno x hx
    have hfu : (db.find? (fun u => u.username == username)).isSome := by
      rw [List.find?_isSome]
      obtain ⟨u, hu, hun⟩ := hdup
      exact ⟨u, hu, by simp [hun]⟩
    obtain ⟨q, hq⟩ := Option.isSome_iff_exists.mp hfu
    simp [create_user, hfe, hq]
  · intro interleaved hno hdup
    have hfe : db.find? (fun u => u.email == email) = none := by
      rw [List.find?_eq_none]
      intro x hx
      simp only [beq_iff_eq]
      exact (hno x hx).1
    have hfun : db.find? (fun u => u.username == username) = none := by
      rw [List.find?_eq_none]
      intro x hx
      simp only [beq_iff_eq]
      exact (hno x hx).2
    have hfe2 : ((db ++ interleaved).find? (fun u => u.email == email)).isSome := by
      apply hfindE
      obtain ⟨u, hu, he⟩ := hdup
      exact ⟨u, List.mem_append.mpr (Or.inr hu), he⟩
    obtain ⟨q, hq⟩ := Option.isSome_iff_exists.mp hfe2
    constructor
    · simp [create_user_interleaved, hfe, hfun, hq]
    · intro u
      simp [create_user_interleaved, hfe, hfun, hq]

theorem signup_duplicate_behavior_witness :
    (∃ u ∈ [bobRow], u.email = "a@x.com") ∧
      create_user (fun p => "H:" ++ p) [bobRow] "a@x.com" "alice" "pw" 0
        = (.error emailRegisteredErr, [bobRow]) ∧
      (∀ u ∈ [bobRow], u.email ≠ "b@x.com") ∧ (∃ u ∈ [bobRow], u.username = "bob") ∧
      create_user (fun p => "H:" ++ p) [bobRow] "b@x.com" "bob" "pw" 0
        = (.error usernameTakenErr, [bobRow]) :=
  ⟨⟨bobRow, by decide, by decide⟩,
   (signup_duplicate_behavior (fun p => "H:" ++ p) [bobRow] "a@x.com" "alice" "pw" 0).1
     ⟨bobRow, by decide, by decide⟩,
   by decide, ⟨bobRow, by decide, by decide⟩,
   (signup_duplicate_behavior (fun p => "H:" ++ p) [bobRow] "b@x.com" "bob" "pw" 0).2.1
     (by decide) ⟨bobRow, by decide, by decide⟩⟩

def c1bRow : APIKeyRow :=
  { id := 1, key := "K1", name := "ci", user_id := 7,
    created_at := 0, expires_at := 2, is_revoked := false, last_used_at := none }

def c1bState : ValState := { keys := [c1bRow], cache := [] }

/-- C1 (code_bug evidence): the service can never raise the KeyExpired 401
at all — on every path `validate_api_key` either returns cached data or dies
with AttributeError, because the expiry check sits behind the store query
that evaluates `APIKey.key_hash`, an attribute the model does not define
(its column is `key`). At the concrete failing input — a key expired at
instant 2, validated at instant 9 with no cache entry — the result is the
AttributeError crash, not the KeyExpired failure the claim (and the
service's own docstring) promises. -/
theorem keyExpired_never_raised :
    (∀ (s : ValState) (now : Nat) (key : String),
      (validate_api_key s now key).1 ≠ .error (.http keyExpiredErr)) ∧
    c1bRow.expires_at < 9 ∧
    validate_api_key c1bState 9 "k"
      = (.error (.attributeError "key_hash"), c1bState) := by
  refine ⟨?_, by decide, by decide⟩
  intro s now key
  cases h : cacheLookup s.cache (get_key_hash key) with
  | none => simp [validate_api_key, h]
  | some v =>
    obtain ⟨data, vu⟩ := v
    by_cases hl : now < vu <;> simp [validate_api_key, h, hl]

def c2bRow : APIKeyRow :=
  { id := 1, key := "K2", name := "ci", user_id := 7,
    created_at := 0, expires_at := 99, is_revoked := false, last_used_at := none }

def c2bInfo : KeyInfo := { api_key_id := 1, user_id := 7, name := "ci", typ := "service" }

def c2bState : ValState :=
  { keys := [c2bRow], cache := [(get_key_hash "k", c2bInfo, 6)] }

def c2bRevoked : APIKeyRow := { c2bRow with is_revoked := true }

def c2bAfter : ValState := { keys := [c2bRevoked], cache := [] }

/-- C2 (code_bug evidence): the revocation itself works — it flips
`is_revoked` and removes the key's cache entry by `api_key_id` — but the
very next `validate_api_key` call with the key's plaintext dies with
AttributeError while building the `APIKey.key_hash` query, instead of
returning the absent result the claim (and the validate docstring)
promises. -/
theorem revoke_then_validate_crashes :
    revoke_api_key c2bState 1 7 = (.ok c2bRevoked, c2bAfter) ∧
    validate_api_key c2bAfter 2 "k"
      = (.error (.attributeError "key_hash"), c2bAfter) ∧
    (validate_api_key c2bAfter 2 "k").1 ≠ .ok none := by
  refine ⟨by decide, by decide, by decide⟩

/-- C3 (code_bug evidence): `create_api_key` never returns the plaintext at
all and never inserts a row: past the duplicate pre-check the constructor
call `APIKey(key_hash=...)` raises TypeError, since the model accepts no
such keyword — its only secret-bearing persisted column is `key`, the very
column the dead line below the commit would load with the PLAINTEXT
(`db_api_key.key = plain_key`). Every call leaves the store unchanged and
no successful result is reachable. -/
theorem create_never_returns_secret :
    (∀ (s : ValState) (now uid : Nat) (name : String) (days : Option Nat)
        (plain : String),
      (create_api_key s now uid name days plain).2 = s ∧
      ∀ (row : APIKeyRow) (ret : String),
        (create_api_key s now uid name days plain).1 ≠ .ok (row, ret)) ∧
    create_api_key { keys := [], cache := [] } 10 7 "ci" (some 30) "secret"
      = (.error (.typeError "key_hash is an invalid keyword argument for APIKey"),
         { keys := [], cache := [] }) := by
  refine ⟨?_, by decide⟩
  intro s now uid name days plain
  cases h : s.keys.find? (fun r => r.user_id == uid && r.name == name) with
  | none =>
    exact ⟨by simp [create_api_key, h], fun row ret => by simp [create_api_key, h]⟩
  | some q =>
    exact ⟨by simp [create_api_key, h], fun row ret => by simp [create_api_key, h]⟩

def c4bRow : APIKeyRow :=
  { id := 1, key := "K4", name := "ci", user_id := 7,
    created_at := 0, expires_at := 100, is_revoked := false, last_used_at := none }

def c4bState : ValState := { keys := [c4bRow], cache := [] }

/-- C4 (code_bug evidence): validation never writes the table — no row's
`last_used_at` can ever advance — and never adds a cache entry: every call
leaves the cache as it was or merely deletes a stale entry, because the only
populate site sits below the AttributeError-raising `APIKey.key_hash` query.
At the concrete input, the very first validation of a fresh unexpired key
(empty cache) crashes, so the unexpired-cache-hit scenario of the claim — and
the store lookup that would resume `last_used_at` updates after the TTL —
never occurs in this program. -/
theorem validate_never_populates_cache :
    (∀ (s : ValState) (now : Nat) (key : String),
      (validate_api_key s now key).2.keys = s.keys ∧
      ((validate_api_key s now key).2.cache = s.cache ∨
        (validate_api_key s now key).2.cache = cacheDel s.cache (get_key_hash key))) ∧
    validate_api_key c4bState 3 "k"
      = (.error (.attributeError "key_hash"), c4bState) := by
  refine ⟨?_, by decide⟩
  intro s now key
  cases h : cacheLookup s.cache (get_key_hash key) with
  | none =>
    exact ⟨by simp [validate_api_key, h], Or.inl (by simp [validate_api_key, h])⟩
  | some v =>
    obtain ⟨data, vu⟩ := v
    by_cases hl : now < vu
    · exact ⟨by simp [validate_api_key, h, hl],
        Or.inl (by simp [validate_api_key, h, hl])⟩
    · exact ⟨by simp [validate_api_key, h, hl],
        Or.inr (by simp [validate_api_key, h, hl])⟩

def c5bRow : APIKeyRow :=
  { id := 2, key := "K5", name := "old", user_id := 7,
    created_at := 0, expires_at := 5, is_revoked := false, last_used_at := none }

def c5bState : ValState := { keys := [c5bRow], cache := [] }

/-- C5 (code_bug evidence): with a store holding one key that is past its
`expires_at`, validating an unknown plaintext and validating at an instant
past the key's expiry produce the IDENTICAL AttributeError crash — not the
distinct `.ok none` / KeyExpired-401 outcomes the claim (and the validate
docstring) promises: the store path that would distinguish them is
unreachable, so the two failure modes are conflated. -/
theorem absent_and_expired_conflated_crash :
    (validate_api_key c5bState 9 "nope").1 = .error (.attributeError "key_hash") ∧
    (validate_api_key c5bState 9 "old").1 = .error (.attributeError "key_hash") ∧
    (validate_api_key c5bState 9 "nope").1 = (validate_api_key c5bState 9 "old").1 ∧
    (validate_api_key c5bState 9 "nope").1 ≠ .ok none ∧
    (validate_api_key c5bState 9 "old").1 ≠ .error (.http keyExpiredErr) := by
  refine ⟨by decide, by decide, by decide, by decide, by decide⟩

end HngAuth
